import Mathlib

/-!
Verification of the wspty per-connection session (src/server.rs).

Shallow embedding of `server.rs`: the Client→Process pump
(`handle_websocket_incoming`), the Process→Client pump
(`handle_pty_incoming`), the outbound writer (`write_to_websocket`) and the
bootstrap step of `handle_connection`.  Bytes are modelled as `Nat`
(values 0..255), byte strings as `List Nat`.  The asynchronous loops are
modelled as functions over the finite list of events the environment feeds
them (inbound websocket messages, chunks read from the pty), returning the
trace of external effects they perform together with how the loop ended.
-/

namespace Wspty

/-- A websocket message as received from the inbound stream
(`tungstenite::Message`): Binary, Text, Ping, Pong or Close. -/
inductive Msg where
  | binary (data : List Nat)
  | text (s : String)
  | ping (data : List Nat)
  | pong (data : List Nat)
  | close
  deriving DecidableEq, Repr

/-- One item produced by `incoming.next().await`: either `Some(Ok(msg))`
or `Some(Err(_))` (a transport error).  End of the list models `None`
(stream ended, peer closed). -/
inductive StreamItem where
  | msg (m : Msg)
  | errItem
  deriving DecidableEq, Repr

/-- A message handed to the outbound writer through the unbounded
channel: a binary frame or a transport-level Pong. -/
inductive OutMsg where
  | binary (data : List Nat)
  | pong (data : List Nat)
  deriving DecidableEq, Repr

/-- An externally visible effect of the Client→Process pump:
a `write_all` on the pty write view, a `resize` of the shared terminal,
a `send` on the websocket channel, or a `send` on the stop channel. -/
inductive Effect where
  | writeAll (payload : List Nat)
  | resize (cols rows : Nat)
  | wsSend (m : OutMsg)
  | stopSignal
  deriving DecidableEq, Repr

/-- The error that makes `handle_websocket_incoming` return early
through the `?` operator. -/
inductive PumpError where
  | decode
  | writeFailed
  | resizeFailed
  | sendFailed
  deriving DecidableEq, Repr

/-- Environment oracle: whether the fallible external calls of the
Client→Process pump fail (`write_all`, `resize`, channel `send`). -/
structure Env where
  writeFails : List Nat → Bool
  resizeFails : Nat → Nat → Bool
  sendFails : Bool

/-- The environment in which no external call fails. -/
def envOk : Env := ⟨fun _ => false, fun _ _ => false, false⟩

/-! ## Model of `serde_json::from_slice::<WindowSize>`

`WindowSize` is `struct WindowSize { cols: u16, rows: u16 }`
(src/server.rs lines 17-21).  The deserializer itself is the external
crate `serde_json`, not part of this repository; the functions below model
it for this record: a JSON object with required unsigned-16-bit fields
`cols` and `rows` (in either order, unknown scalar fields ignored,
duplicates rejected, whole input consumed); truncated or malformed input
yields `none` (serde's `Err`), never a panic. -/

/-- JSON insignificant whitespace: space, tab, newline, carriage return. -/
def isJsonWs (b : Nat) : Bool :=
  b == 32 || b == 9 || b == 10 || b == 13

/-- Drop leading JSON whitespace. -/
def skipWs : List Nat → List Nat
  | [] => []
  | b :: rest => if isJsonWs b then skipWs rest else b :: rest

/-- ASCII decimal digit. -/
def isDigit (b : Nat) : Bool := 48 ≤ b && b ≤ 57

/-- Consume a run of decimal digits, accumulating their value. -/
def parseDigits : Nat → List Nat → Nat × List Nat
  | acc, [] => (acc, [])
  | acc, b :: rest =>
    if isDigit b then parseDigits (acc * 10 + (b - 48)) rest
    else (acc, b :: rest)

/-- Parse a non-negative JSON integer (must start with a digit). -/
def parseNumber (l : List Nat) : Option (Nat × List Nat) :=
  match l with
  | [] => none
  | b :: _ => if isDigit b then some (parseDigits 0 l) else none

/-- Consume the body of a JSON string after the opening quote, up to the
closing quote (byte 34); no escape sequences. -/
def parseStringBody : List Nat → Option (List Nat × List Nat)
  | [] => none
  | b :: rest =>
    if b == 34 then some ([], rest)
    else
      match parseStringBody rest with
      | some (s, r) => some (b :: s, r)
      | none => none

/-- Parse a JSON string, returning its contents and the rest. -/
def parseJsonString (l : List Nat) : Option (List Nat × List Nat) :=
  match l with
  | 34 :: rest => parseStringBody rest
  | _ => none

/-- Skip an (ignored) scalar field value: a number or a string. -/
def skipValue (l : List Nat) : Option (List Nat) :=
  match parseNumber l with
  | some (_, r) => some r
  | none =>
    match parseJsonString l with
    | some (_, r) => some r
    | none => none

/-- The bytes of the field name `cols`. -/
def colsKey : List Nat := [99, 111, 108, 115]

/-- The bytes of the field name `rows`. -/
def rowsKey : List Nat := [114, 111, 119, 115]

/-- Parse one `"key": value` pair, updating the `cols`/`rows`
accumulators; duplicate or out-of-range (≥ 2^16) fields are errors. -/
def parseField (colsAcc rowsAcc : Option Nat) (l : List Nat) :
    Option (Option Nat × Option Nat × List Nat) :=
  match parseJsonString (skipWs l) with
  | none => none
  | some (key, r) =>
    match skipWs r with
    | 58 :: r2 =>
      let r3 := skipWs r2
      if key == colsKey then
        match colsAcc, parseNumber r3 with
        | none, some (v, r4) => if v ≤ 65535 then some (some v, rowsAcc, r4) else none
        | _, _ => none
      else if key == rowsKey then
        match rowsAcc, parseNumber r3 with
        | none, some (v, r4) => if v ≤ 65535 then some (colsAcc, some v, r4) else none
        | _, _ => none
      else
        match skipValue r3 with
        | some r4 => some (colsAcc, rowsAcc, r4)
        | none => none
    | _ => none

/-- Parse the field list of the object, fuelled by the input length;
ends at `}`, which must be followed only by whitespace, and both fields
must have been seen. -/
def parseFields : Nat → Option Nat → Option Nat → List Nat → Option (Nat × Nat)
  | 0, _, _, _ => none
  | fuel + 1, colsAcc, rowsAcc, l =>
    match parseField colsAcc rowsAcc l with
    | none => none
    | some (c, r, rest) =>
      match skipWs rest with
      | 44 :: r2 => parseFields fuel c r r2
      | 125 :: r2 =>
        match c, r with
        | some cv, some rv => if skipWs r2 == [] then some (cv, rv) else none
        | _, _ => none
      | _ => none

/-- Model of `serde_json::from_slice::<WindowSize>(&data[1..])`
(src/server.rs line 38): `some (cols, rows)` on a well-formed object,
`none` (a decode error, not a panic) otherwise. -/
def parseWindowSize (l : List Nat) : Option (Nat × Nat) :=
  match skipWs l with
  | 123 :: rest => parseFields (rest.length + 1) none none rest
  | _ => none

/-- The ASCII bytes of the JSON text `{"cols":80,"rows":24}`. -/
def goodResizePayload : List Nat :=
  [123, 34, 99, 111, 108, 115, 34, 58, 56, 48, 44,
   34, 114, 111, 119, 115, 34, 58, 50, 52, 125]

/-! ## Client→Process pump (`handle_websocket_incoming`, lines 23-54) -/

/-- Result of handling one inbound message in the body of the
`while let` loop: `ok` continues the loop, `error` is an early return
through `?` (skipping the rest of the function), `panic` is a Rust
panic.  Each carries the effects performed before the loop body ended. -/
inductive StepResult where
  | ok (effects : List Effect)
  | error (effects : List Effect) (e : PumpError)
  | panic
  deriving DecidableEq, Repr

/-- The effects performed by a loop-body step (a panic happens at the
`data[0]` index, before any effect). -/
def StepResult.effects : StepResult → List Effect
  | .ok es => es
  | .error es _ => es
  | .panic => []

/-- Model of tokio's `AsyncWriteExt::write_all` (external crate): its
future loops calling `poll_write` while the buffer is non-empty, so a
call on an empty buffer completes at once without any operation on the
pty, and a call on a non-empty buffer delivers exactly the buffer's
bytes.  Returns the write operations that reach the process. -/
def write_all_ops (payload : List Nat) : List (List Nat) :=
  if payload = [] then [] else [payload]

/-- The write operations one recorded effect causes on the process:
only a `write_all` effect does, through `write_all_ops`. -/
def effect_pty_writes : Effect → List (List Nat)
  | .writeAll p => write_all_ops p
  | .resize _ _ => []
  | .wsSend _ => []
  | .stopSignal => []

/-- The write operations a trace of effects causes on the process, in
order. -/
def pty_writes : List Effect → List (List Nat)
  | [] => []
  | e :: es => effect_pty_writes e ++ pty_writes es

/-- One iteration of the `match msg` in `handle_websocket_incoming`
(src/server.rs lines 30-48).  `Message::Binary(data)` is dispatched on
`data[0]` — indexing an empty `Vec` panics.  Tag 0 writes
`&data[1..]` to the pty under the guard `data.len().gt(&0)` from the
source (the length of the whole frame, not of the payload); tag 1
deserializes a `WindowSize` and resizes; tag 2 sends the one-byte
heartbeat reply `vec![1u8]`; any other tag does nothing.
`Message::Ping(data)` sends `Pong(data)`; other messages do nothing. -/
def websocket_incoming_step (env : Env) (m : Msg) : StepResult :=
  match m with
  | .binary [] => .panic
  | .binary (tag :: payload) =>
    if tag = 0 then
      if (tag :: payload).length > 0 then
        if env.writeFails payload then .error [.writeAll payload] .writeFailed
        else .ok [.writeAll payload]
      else .ok []
    else if tag = 1 then
      match parseWindowSize payload with
      | none => .error [] .decode
      | some (c, r) =>
        if env.resizeFails c r then .error [.resize c r] .resizeFailed
        else .ok [.resize c r]
    else if tag = 2 then
      if env.sendFails then .error [.wsSend (.binary [1])] .sendFailed
      else .ok [.wsSend (.binary [1])]
    else .ok []
  | .ping d =>
    if env.sendFails then .error [.wsSend (.pong d)] .sendFailed
    else .ok [.wsSend (.pong d)]
  | _ => .ok []

/-- How the Client→Process pump ended: the loop ran to completion and
the function returned `Ok(())`, or an error propagated through `?`,
or a panic occurred. -/
inductive PumpOutcome where
  | ok
  | errored (e : PumpError)
  | panicked
  deriving DecidableEq, Repr

/-- `handle_websocket_incoming` (src/server.rs lines 23-54) over the
finite list of items the inbound stream yields: the `while let
Some(Ok(msg))` loop ends when the stream ends (`None`) or yields
`Some(Err(_))`, and then — and only then — the function reaches line 50
and sends on the stop channel (its own failure is ignored by `let _`).
An `?` error returns early, skipping the stop send. -/
def handle_websocket_incoming (env : Env) :
    List StreamItem → List Effect × PumpOutcome
  | [] => ([.stopSignal], .ok)
  | .errItem :: _ => ([.stopSignal], .ok)
  | .msg m :: rest =>
    match websocket_incoming_step env m with
    | .ok es =>
      (es ++ (handle_websocket_incoming env rest).1,
       (handle_websocket_incoming env rest).2)
    | .error es e => (es, .errored e)
    | .panic => ([], .panicked)

/-! ## Process→Client pump (`handle_pty_incoming`, lines 56-81) -/

/-- One result of `pty_shell_reader.read_buf(&mut tail).await`: a chunk
of bytes placed in `buffer[1..]` (length ≤ 1023; length 0 signals
end-of-output) or a read error. -/
inductive ReadResult where
  | chunk (data : List Nat)
  | readErr
  deriving DecidableEq, Repr

/-- How the Process→Client pump ended (or `waiting` if it is still
blocked on the next read after the given reads). -/
inductive PtyOutcome where
  | done
  | failed
  | waiting
  deriving DecidableEq, Repr

/-- The framing of src/server.rs lines 64-70: `buffer[0] = 0`, the chunk
is read into `buffer[1..]`, and `buffer[..n+1]` is sent — the frame is
the tag byte 0 followed by the chunk. -/
def encode_output (payload : List Nat) : List Nat := 0 :: payload

/-- `handle_pty_incoming` (src/server.rs lines 56-81) over the finite
list of read results: a zero-length read breaks the loop normally, a
read error or a failed channel send ends it with an error, and every
non-empty chunk is sent as `encode_output chunk`.  Returns the frames
enqueued on the websocket channel, in order. -/
def handle_pty_incoming (sendFails : Bool) :
    List ReadResult → List (List Nat) × PtyOutcome
  | [] => ([], .waiting)
  | .readErr :: _ => ([], .failed)
  | .chunk c :: rest =>
    if c.length = 0 then ([], .done)
    else if sendFails then ([], .failed)
    else
      (encode_output c :: (handle_pty_incoming sendFails rest).1,
       (handle_pty_incoming sendFails rest).2)

/-! ## Outbound writer (`write_to_websocket`, lines 83-91) -/

/-- How the outbound writer ended: the channel closed (all senders
dropped) or a transmit failed and propagated as an error. -/
inductive WriterOutcome where
  | queueClosed
  | txError
  deriving DecidableEq, Repr

/-- `write_to_websocket` (src/server.rs lines 83-91): dequeue one
message at a time from the FIFO channel and transmit it before
dequeuing the next.  `queue` is the list of messages in enqueue order;
`txFails i` tells whether the `i`-th transmission fails (the `?` on
`outgoing.send`).  Returns the messages put on the wire, in order. -/
def write_to_websocket (txFails : Nat → Bool) :
    Nat → List OutMsg → List OutMsg × WriterOutcome
  | _, [] => ([], .queueClosed)
  | i, m :: rest =>
    if txFails i then ([], .txError)
    else
      (m :: (write_to_websocket txFails (i + 1) rest).1,
       (write_to_websocket txFails (i + 1) rest).2)

/-! ## Session bootstrap (`handle_connection`, lines 93-130) -/

/-- The default command of src/server.rs line 100. -/
def default_command : String := "/usr/bin/bash"

/-- The bootstrap step of `handle_connection` (src/server.rs lines
99-104): one `ws_incoming.next().await`; if it yields
`Some(Ok(Message::Text(cmd2)))` that text is the command, otherwise the
default command stands.  The consumed item is gone from the stream
either way; the remaining stream is what `handle_websocket_incoming`
later receives. -/
def bootstrap_command : List StreamItem → String × List StreamItem
  | [] => (default_command, [])
  | .msg (.text s) :: rest => (s, rest)
  | _ :: rest => (default_command, rest)

/-- Whether a stream item is `Some(Ok(Message::Text(_)))`. -/
def isTextMsg : StreamItem → Bool
  | .msg (.text _) => true
  | _ => false

/-- The inbound side of a whole session: bootstrap consumes the first
stream item to pick the command, then the Client→Process pump runs on
the remaining stream. -/
def session_incoming (env : Env) (items : List StreamItem) :
    String × (List Effect × PumpOutcome) :=
  let (c, rest) := bootstrap_command items
  (c, handle_websocket_incoming env rest)

/-! ## Theorems -/

/-- No loop-body step ever sends on the stop channel: the only stop send
in `handle_websocket_incoming` is the one at line 50, after the loop. -/
theorem step_effects_no_stop (env : Env) (m : Msg) :
    Effect.stopSignal ∉ (websocket_incoming_step env m).effects := by
  cases m with
  | binary data =>
    cases data with
    | nil => simp [websocket_incoming_step, StepResult.effects]
    | cons tag payload =>
      simp only [websocket_incoming_step]
      by_cases h0 : tag = 0
      · simp only [h0, if_true, if_pos (by simp : (0 :: payload).length > 0)]
        by_cases hw : env.writeFails payload <;> simp [hw, StepResult.effects]
      · simp only [h0, if_false]
        by_cases h1 : tag = 1
        · simp only [h1, if_true]
          cases hp : parseWindowSize payload with
          | none => simp [StepResult.effects]
          | some cr =>
            by_cases hr : env.resizeFails cr.1 cr.2 <;>
              simp [hr, StepResult.effects]
        · simp only [h1, if_false]
          by_cases h2 : tag = 2
          · simp only [h2, if_true]
            by_cases hs : env.sendFails <;> simp [hs, StepResult.effects]
          · simp [h2, StepResult.effects]
  | text s => simp [websocket_incoming_step, StepResult.effects]
  | ping d =>
    by_cases hs : env.sendFails <;>
      simp [websocket_incoming_step, hs, StepResult.effects]
  | pong d => simp [websocket_incoming_step, StepResult.effects]
  | close => simp [websocket_incoming_step, StepResult.effects]

/-- C1 (amended): the Client→Process pump sends on the stop channel
exactly when its loop ends normally — the inbound stream ending or
yielding a transport error — and then it sends exactly once, as its
final action; when the loop ends through a decode, write, resize or
send error (or a panic), the `?` operator returns before line 50 and
no stop signal is sent. -/
theorem handle_websocket_incoming_stop_iff_normal_end
    (env : Env) (items : List StreamItem) :
    ((handle_websocket_incoming env items).2 = .ok →
      (handle_websocket_incoming env items).1.count Effect.stopSignal = 1 ∧
      (handle_websocket_incoming env items).1.getLast? = some Effect.stopSignal) ∧
    ((handle_websocket_incoming env items).2 ≠ .ok →
      Effect.stopSignal ∉ (handle_websocket_incoming env items).1) := by
  induction items with
  | nil => simp [handle_websocket_incoming]
  | cons it rest ih =>
    cases it with
    | errItem => simp [handle_websocket_incoming]
    | msg m =>
      cases hs : websocket_incoming_step env m with
      | ok es =>
        have hes : Effect.stopSignal ∉ es := by
          have := step_effects_no_stop env m
          rwa [hs] at this
        constructor
        · intro hok
          simp only [handle_websocket_incoming, hs] at hok ⊢
          obtain ⟨hc, hl⟩ := ih.1 hok
          refine ⟨?_, ?_⟩
          · rw [List.count_append, List.count_eq_zero.mpr hes, hc]
          · rw [List.getLast?_append_of_ne_nil es
              (by rintro h; rw [h] at hl; simp at hl)]
            exact hl
        · intro hne
          simp only [handle_websocket_incoming, hs] at hne ⊢
          intro hmem
          rcases List.mem_append.mp hmem with h | h
          · exact hes h
          · exact ih.2 hne h
      | error es e =>
        have hes : Effect.stopSignal ∉ es := by
          have := step_effects_no_stop env m
          rwa [hs] at this
        constructor
        · intro hok
          simp [handle_websocket_incoming, hs] at hok
        · intro _
          simp only [handle_websocket_incoming, hs]
          exact hes
      | panic =>
        constructor
        · intro hok
          simp [handle_websocket_incoming, hs] at hok
        · intro _
          simp [handle_websocket_incoming, hs]

/-- C1 (counterexample): a Resize frame with an empty payload makes the
pump end through a decode error, and the resulting trace contains no
stop signal — the claim that every loop exit sends the stop signal is
false for the decode-error exit. -/
theorem decode_error_exits_without_stop :
    (handle_websocket_incoming envOk [.msg (.binary [1])]).2 =
      .errored .decode ∧
    Effect.stopSignal ∉ (handle_websocket_incoming envOk [.msg (.binary [1])]).1 := by
  decide

/-- C1 (witness): on the stream that ends immediately the pump ends
normally and signals exactly once; on the stream holding one malformed
Resize frame it ends abnormally and the trace has no stop signal. -/
theorem stop_signal_example :
    ((handle_websocket_incoming envOk []).1.count Effect.stopSignal = 1 ∧
      (handle_websocket_incoming envOk []).1.getLast? = some Effect.stopSignal) ∧
    Effect.stopSignal ∉ (handle_websocket_incoming envOk [.msg (.binary [1, 2])]).1 :=
  ⟨(handle_websocket_incoming_stop_iff_normal_end envOk []).1 (by decide),
   (handle_websocket_incoming_stop_iff_normal_end envOk
      [.msg (.binary [1, 2])]).2 (by decide)⟩

/-- C2: for every tag-0 Binary frame the pump hands `&data[1..]` to
`write_all` (the guard of src/server.rs line 33 is always satisfied),
and `write_all` operates on the process only for a non-empty buffer:
the payload is written to the process's write view, as one operation
carrying exactly its bytes, if and only if it is non-empty, and a
tag-0 frame with an empty payload causes no write to the process. -/
theorem input_payload_written_iff_nonempty (env : Env) (payload : List Nat) :
    (payload ≠ [] →
      pty_writes (websocket_incoming_step env (.binary (0 :: payload))).effects =
        [payload]) ∧
    (payload = [] →
      pty_writes (websocket_incoming_step env (.binary (0 :: payload))).effects =
        []) := by
  constructor
  · intro h
    by_cases hw : env.writeFails payload <;>
      simp [websocket_incoming_step, hw, StepResult.effects, pty_writes,
        effect_pty_writes, write_all_ops, h]
  · intro h
    subst h
    by_cases hw : env.writeFails [] <;>
      simp [websocket_incoming_step, hw, StepResult.effects, pty_writes,
        effect_pty_writes, write_all_ops]

/-- C2 (witness): the payload `[104, 105]` reaches the process as one
write of exactly those bytes; the empty payload of the frame `[0]`
causes no write operation on the process. -/
theorem input_payload_written_example :
    pty_writes (websocket_incoming_step envOk (.binary (0 :: [104, 105]))).effects =
      [[104, 105]] ∧
    pty_writes (websocket_incoming_step envOk (.binary (0 :: ([] : List Nat)))).effects =
      [] :=
  ⟨(input_payload_written_iff_nonempty envOk [104, 105]).1 (by decide),
   (input_payload_written_iff_nonempty envOk []).2 rfl⟩

/-- C3: for a Binary frame with tag byte 1, if the remainder
deserializes as a `WindowSize` with fields `cols` and `rows` then the
pump performs exactly the resize with those values; if the remainder is
truncated or malformed the step is the decode error returned through
`?` — an error value, not a panic. -/
theorem resize_frame_decode (env : Env) (payload : List Nat) :
    (∀ c r, parseWindowSize payload = some (c, r) →
      (websocket_incoming_step env (.binary (1 :: payload))).effects =
        [.resize c r]) ∧
    (parseWindowSize payload = none →
      websocket_incoming_step env (.binary (1 :: payload)) =
        .error [] .decode) := by
  constructor
  · intro c r hp
    by_cases hr : env.resizeFails c r <;>
      simp [websocket_incoming_step, hp, hr, StepResult.effects]
  · intro hp
    simp [websocket_incoming_step, hp]

/-- C3 (witness): the payload `{"cols":80,"rows":24}` yields exactly the
resize to 80 columns and 24 rows, and the truncated payload `{"c`
yields the decode error. -/
theorem resize_frame_decode_example :
    (websocket_incoming_step envOk (.binary (1 :: goodResizePayload))).effects =
      [.resize 80 24] ∧
    websocket_incoming_step envOk (.binary (1 :: [123, 34, 99])) =
      .error [] .decode :=
  ⟨(resize_frame_decode envOk goodResizePayload).1 80 24 (by decide),
   (resize_frame_decode envOk [123, 34, 99]).2 (by decide)⟩

/-- C4: for a Binary frame with tag byte 2 the step enqueues exactly
one message, the single byte with value 1 (`vec![1u8]`), regardless of
the remainder; that message is the first element of the session trace
from that frame on, so it precedes every frame enqueued later; and it
is not shaped like an Output frame, whose first byte is always 0. -/
theorem heartbeat_reply_enqueued (env : Env) (payload : List Nat)
    (items : List StreamItem) :
    (websocket_incoming_step env (.binary (2 :: payload))).effects =
      [.wsSend (.binary [1])] ∧
    (handle_websocket_incoming env (.msg (.binary (2 :: payload)) :: items)).1.head? =
      some (.wsSend (.binary [1])) ∧
    ∀ p : List Nat, (encode_output p).head? = some 0 := by
  refine ⟨?_, ?_, fun p => rfl⟩
  · by_cases hs : env.sendFails <;>
      simp [websocket_incoming_step, hs, StepResult.effects]
  · by_cases hs : env.sendFails <;>
      simp [handle_websocket_incoming, websocket_incoming_step, hs]

/-- C5: for every non-empty chunk read from the pty, the frame the
Process→Client pump enqueues is exactly `encode_output chunk`: the tag
byte 0 followed by the chunk, of length one more than the chunk, with
the chunk as its tail. -/
theorem pty_chunk_encoded_as_output (c : List Nat) (rest : List ReadResult)
    (h : c ≠ []) :
    (handle_pty_incoming false (.chunk c :: rest)).1 =
      encode_output c :: (handle_pty_incoming false rest).1 ∧
    (encode_output c).length = c.length + 1 ∧
    (encode_output c).head? = some 0 ∧
    (encode_output c).tail = c := by
  have hl : ¬c.length = 0 := by simpa using h
  exact ⟨by simp [handle_pty_incoming, hl], by simp [encode_output], rfl, rfl⟩

/-- C5 (witness): reading the chunk `[104, 105]` enqueues exactly the
frame `[0, 104, 105]`. -/
theorem pty_chunk_encoded_example :
    (handle_pty_incoming false [.chunk [104, 105]]).1 =
      encode_output [104, 105] :: (handle_pty_incoming false []).1 ∧
    (encode_output [104, 105]).length = [104, 105].length + 1 ∧
    (encode_output [104, 105]).head? = some 0 ∧
    (encode_output [104, 105]).tail = [104, 105] :=
  pty_chunk_encoded_as_output [104, 105] [] (by decide)

/-- C6: a Binary frame whose tag byte is not 0, 1 or 2 falls into the
`_ => ()` arm: the step performs no effect and produces no error, and
the pump behaves on the rest of the stream exactly as if the frame had
never arrived. -/
theorem unknown_tag_ignored (env : Env) (tag : Nat) (payload : List Nat)
    (items : List StreamItem)
    (h0 : tag ≠ 0) (h1 : tag ≠ 1) (h2 : tag ≠ 2) :
    websocket_incoming_step env (.binary (tag :: payload)) = .ok [] ∧
    handle_websocket_incoming env (.msg (.binary (tag :: payload)) :: items) =
      handle_websocket_incoming env items := by
  have hstep : websocket_incoming_step env (.binary (tag :: payload)) = .ok [] := by
    simp [websocket_incoming_step, h0, h1, h2]
  exact ⟨hstep, by simp [handle_websocket_incoming, hstep]⟩

/-- C6 (witness): the frame `[3, 7]` is silently ignored. -/
theorem unknown_tag_ignored_example :
    websocket_incoming_step envOk (.binary [3, 7]) = .ok [] ∧
    handle_websocket_incoming envOk [.msg (.binary [3, 7])] =
      handle_websocket_incoming envOk [] :=
  unknown_tag_ignored envOk 3 [7] [] (by decide) (by decide) (by decide)

/-- C7: bootstrap consumes exactly the first stream item: a text
message becomes the command to spawn and is removed from the stream;
any non-text first item leaves the default command in place and is
likewise removed; in particular a session whose first item is a binary
Input frame spawns the default command and its pump trace is exactly
the trace over the remaining items — the first frame's payload is never
written to the process. -/
theorem bootstrap_first_message :
    (∀ (s : String) (rest : List StreamItem),
      bootstrap_command (.msg (.text s) :: rest) = (s, rest)) ∧
    (∀ (first : StreamItem) (rest : List StreamItem),
      isTextMsg first = false →
      bootstrap_command (first :: rest) = (default_command, rest)) ∧
    (∀ (env : Env) (p : List Nat) (rest : List StreamItem),
      session_incoming env (.msg (.binary (0 :: p)) :: rest) =
        (default_command, handle_websocket_incoming env rest)) := by
  refine ⟨fun s rest => rfl, ?_, fun env p rest => rfl⟩
  intro first rest h
  match first with
  | .errItem => rfl
  | .msg (.binary d) => rfl
  | .msg (.text s) => simp [isTextMsg] at h
  | .msg (.ping d) => rfl
  | .msg (.pong d) => rfl
  | .msg .close => rfl

/-- C7 (witness): a first text message `"/bin/sh"` becomes the command;
a first binary Input frame `[0, 104]` leaves the default command and
contributes nothing to the session trace. -/
theorem bootstrap_first_message_example :
    bootstrap_command [.msg (.text "/bin/sh")] = ("/bin/sh", []) ∧
    bootstrap_command [.msg (.binary [0, 104])] = (default_command, []) ∧
    session_incoming envOk [.msg (.binary [0, 104])] =
      (default_command, handle_websocket_incoming envOk []) :=
  ⟨bootstrap_first_message.1 "/bin/sh" [],
   bootstrap_first_message.2.1 (.msg (.binary [0, 104])) [] (by decide),
   bootstrap_first_message.2.2 envOk [104] []⟩

/-- C8: the outbound writer dequeues one message at a time and
transmits it before dequeuing the next: what reaches the wire is
always an initial segment of the queue in enqueue order (no
reordering, dropping or duplication), and while every transmission
succeeds the whole queue reaches the wire exactly and the writer ends
only when the queue closes. -/
theorem write_to_websocket_fifo (txFails : Nat → Bool) (i : Nat)
    (queue : List OutMsg) :
    (write_to_websocket txFails i queue).1 =
      queue.take (write_to_websocket txFails i queue).1.length ∧
    ((∀ j, txFails j = false) →
      write_to_websocket txFails i queue = (queue, .queueClosed)) := by
  induction queue generalizing i with
  | nil => simp [write_to_websocket]
  | cons m rest ih =>
    by_cases hf : txFails i = true
    · refine ⟨by simp [write_to_websocket, hf], ?_⟩
      intro hall
      rw [hall i] at hf
      cases hf
    · constructor
      · have h1 := (ih (i + 1)).1
        simp [write_to_websocket, hf]
        exact h1
      · intro hall
        simp [write_to_websocket, hf, (ih (i + 1)).2 hall]

/-- C8 (witness): with no transmit failures a two-message queue is put
on the wire unchanged and the writer ends with the queue closing. -/
theorem write_to_websocket_fifo_example :
    write_to_websocket (fun _ => false) 0 [.binary [0, 5], .pong [7]] =
      ([.binary [0, 5], .pong [7]], .queueClosed) :=
  (write_to_websocket_fifo (fun _ => false) 0
    [.binary [0, 5], .pong [7]]).2 (fun _ => rfl)

/-- C9: the dispatch of the Client→Process pump indexes `data[0]`
without checking that the frame is non-empty: on the empty Binary
frame it panics — the pump ends in the panic outcome, not in a decode
error — while on every non-empty Binary frame it never panics. -/
theorem empty_binary_frame_panics (env : Env) :
    websocket_incoming_step env (.binary []) = .panic ∧
    (∀ tag payload,
      websocket_incoming_step env (.binary (tag :: payload)) ≠ .panic) ∧
    (handle_websocket_incoming env [.msg (.binary [])]).2 = .panicked := by
  refine ⟨rfl, ?_, by simp [handle_websocket_incoming, websocket_incoming_step]⟩
  intro tag payload
  simp only [websocket_incoming_step]
  by_cases h0 : tag = 0
  · simp only [h0, if_true, if_pos (by simp : (0 :: payload).length > 0)]
    by_cases hw : env.writeFails payload <;> simp [hw]
  · simp only [h0, if_false]
    by_cases h1 : tag = 1
    · simp only [h1, if_true]
      cases hp : parseWindowSize payload with
      | none => simp
      | some cr =>
        by_cases hr : env.resizeFails cr.1 cr.2 <;> simp [hr]
    · simp only [h1, if_false]
      by_cases h2 : tag = 2
      · simp only [h2, if_true]
        by_cases hs : env.sendFails <;> simp [hs]
      · simp [h2]

/-- C9 (witness): the empty Binary frame panics; the frame `[0]` does
not. -/
theorem empty_binary_frame_panics_example :
    websocket_incoming_step envOk (.binary []) = .panic ∧
    websocket_incoming_step envOk (.binary [0]) ≠ .panic :=
  ⟨(empty_binary_frame_panics envOk).1,
   (empty_binary_frame_panics envOk).2.1 0 []⟩

/-- C10: when every chunk read from the pty fits the 1023-byte tail of
the 1024-byte read buffer (byte 0 being the reserved tag), every frame
the Process→Client pump enqueues starts with the tag byte 0, carries a
payload of 1 to 1023 bytes and has total length at most 1024; a
zero-length read enqueues nothing and ends the pump. -/
theorem output_frame_bounded (sendFails : Bool) (reads : List ReadResult)
    (hb : ∀ c, ReadResult.chunk c ∈ reads → c.length ≤ 1023) :
    ∀ m ∈ (handle_pty_incoming sendFails reads).1,
      m.head? = some 0 ∧ 1 ≤ m.tail.length ∧ m.tail.length ≤ 1023 ∧
      m.length = m.tail.length + 1 ∧ m.length ≤ 1024 := by
  induction reads with
  | nil => simp [handle_pty_incoming]
  | cons r rest ih =>
    cases r with
    | readErr => simp [handle_pty_incoming]
    | chunk c =>
      by_cases hc : c.length = 0
      · simp [handle_pty_incoming, hc]
      · cases sendFails with
        | true => simp [handle_pty_incoming, hc]
        | false =>
          intro m hm
          simp only [handle_pty_incoming, hc, if_false, Bool.false_eq_true,
            List.mem_cons] at hm
          rcases hm with rfl | hm'
          · have hcb : c.length ≤ 1023 := hb c (by simp)
            have hc1 : 1 ≤ c.length := Nat.one_le_iff_ne_zero.mpr hc
            exact ⟨rfl, hc1, hcb, by simp [encode_output], by
              simp only [encode_output, List.length_cons]
              omega⟩
          · exact ih (fun c' hc' => hb c' (List.mem_cons_of_mem _ hc')) m hm'

/-- C10 (witness): from the single chunk `[104]` the pump enqueues
`[0, 104]`, whose payload has length 1 and whose total length is 2. -/
theorem output_frame_bounded_example :
    ([0, 104] : List Nat).head? = some 0 ∧
    1 ≤ ([0, 104] : List Nat).tail.length ∧
    ([0, 104] : List Nat).tail.length ≤ 1023 ∧
    ([0, 104] : List Nat).length = ([0, 104] : List Nat).tail.length + 1 ∧
    ([0, 104] : List Nat).length ≤ 1024 :=
  output_frame_bounded false [.chunk [104]]
    (by
      intro c hc
      simp only [List.mem_singleton, ReadResult.chunk.injEq] at hc
      subst hc
      decide)
    [0, 104] (by decide)

end Wspty
